import Mathlib

/-!
Verification of the teacher-analytics and weekly-review backend.

The Python services are shallowly embedded: Firestore query results are
passed in as explicit lists (the fetch layer is I/O), Python dicts become
insertion-ordered association lists, Python sets become first-occurrence
deduplicated lists, floats become rationals, timezone-aware datetimes
become integer Unix seconds, and `list.sort` becomes a stable insertion
sort with the same comparator semantics.
-/

/-! ## Generic helpers -/

/-- Round half to even, as Python `round`/float formatting do. -/
def roundHalfEven (q : ℚ) : ℤ :=
  let f := ⌊q⌋
  let frac := q - (f : ℚ)
  if frac < 1 / 2 then f
  else if 1 / 2 < frac then f + 1
  else if f % 2 = 0 then f else f + 1

/-- Python `round(q, n)`. -/
def pyRound (q : ℚ) (n : ℕ) : ℚ :=
  (roundHalfEven (q * (10 : ℚ) ^ n) : ℚ) / (10 : ℚ) ^ n

/-- Python `f"{q:.1f}"` for the rational model of a float.
(The `-0.0` rendering corner of IEEE floats is not modelled.) -/
def fmt1 (q : ℚ) : String :=
  let n := roundHalfEven (q * 10)
  (if n < 0 then "-" else "") ++ toString (n.natAbs / 10) ++ "." ++ toString (n.natAbs % 10)

/-- Python string slicing `s[:n]`. -/
def pyTake (s : String) (n : ℕ) : String := String.mk (s.data.take n)

/-- Python truthiness of an optional string (`None` and `""` are falsy). -/
def truthyStr : Option String → Bool
  | some s => s != ""
  | none => false

/-- Python truthiness of an optional natural (`None` and `0` are falsy). -/
def truthyNat : Option ℕ → Bool
  | some n => n != 0
  | none => false

/-- Stable insert: place `a` before the first element `b` with `le a b`.
With `le a b = (key a ≤ key b)` this models Python's stable ascending sort,
with `le a b = (key b ≤ key a)` the stable `reverse=True` sort. -/
def pyInsert (le : α → α → Bool) (a : α) : List α → List α
  | [] => [a]
  | b :: l => if le a b then a :: b :: l else b :: pyInsert le a l

/-- Stable insertion sort modelling Python `list.sort`. -/
def pySort (le : α → α → Bool) : List α → List α
  | [] => []
  | b :: l => pyInsert le b (pySort le l)

/-- Lookup in an insertion-ordered association list (Python `dict.get`). -/
def alookup (k : String) : List (String × β) → Option β
  | [] => none
  | (k2, v) :: l => if k2 = k then some v else alookup k l

/-- Update-or-append in an insertion-ordered association list
(Python `dict.__setitem__` / `defaultdict` access: first write fixes the
position of the key, later writes update in place). -/
def aupsert (k : String) (f : Option β → β) : List (String × β) → List (String × β)
  | [] => [(k, f none)]
  | (k2, v) :: l => if k2 = k then (k2, f (some v)) :: l else (k2, v) :: aupsert k f l

/-- First-occurrence deduplication.  Python's `list(set(xs))` iterates the set
in an unspecified (hash-dependent) order; we model it as first-occurrence
order, which is one admissible order. -/
def dedupKeepFirstAux [DecidableEq α] (seen : List α) : List α → List α
  | [] => []
  | a :: l => if a ∈ seen then dedupKeepFirstAux seen l else a :: dedupKeepFirstAux (a :: seen) l

def dedupKeepFirst [DecidableEq α] (l : List α) : List α := dedupKeepFirstAux [] l

/-! ## Time Window Resolver (`AnalyticsService._get_time_range`,
`_get_previous_period`). Instants are Unix seconds (UTC). -/

/-- `datetime(2020, 1, 1, tzinfo=timezone.utc)` as Unix seconds. -/
def EPOCH_FLOOR_2020 : ℤ := 1577836800

/-- `AnalyticsService._get_time_range`: `(start, now)` for the period tag.
Any tag other than week/month (in particular all-time) gets the fixed
epoch floor. -/
def get_time_range (period : String) (now : ℤ) : ℤ × ℤ :=
  if period = "week" then (now - 7 * 86400, now)
  else if period = "month" then (now - 30 * 86400, now)
  else (EPOCH_FLOOR_2020, now)

/-- `AnalyticsService._get_previous_period`: the Python `(None, None)` pair
becomes `none`. -/
def get_previous_period (period : String) (currentStart : ℤ) : Option (ℤ × ℤ) :=
  if period = "all-time" then none
  else some (currentStart - (if period = "week" then 7 * 86400 else 30 * 86400), currentStart)

/-! ## Trend block (`AnalyticsService._calculate_trends`) -/

/-- `AnalyticsService._calculate_trends`.  Session counts are naturals,
star averages are the rational model of the Python floats. -/
def calculate_trends (currSessions prevSessions : ℕ) (currStars prevStars : ℚ) :
    String × String :=
  let sessionsTrend :=
    if 0 < prevSessions then
      let change : ℚ := ((currSessions : ℚ) - (prevSessions : ℚ)) / (prevSessions : ℚ) * 100
      (if 0 ≤ change then "+" else "") ++ toString (roundHalfEven change) ++ "%"
    else if 0 < currSessions then "+100%" else "0%"
  let starsTrend :=
    if 0 < prevStars then
      let starChange := currStars - prevStars
      (if 0 ≤ starChange then "+" else "") ++ fmt1 starChange
    else if 0 < currStars then "+" ++ fmt1 currStars else "0"
  (sessionsTrend, starsTrend)

/-! ## Insight Narrator (`AnalyticsService._call_gemini_for_insights`,
`_fallback_insights`) -/

/-- A validated Class Pulse insight as stored/returned. -/
structure InsightOut where
  type : String
  level : Option String
  title : String
  message : String
deriving DecidableEq

/-- An insight object as parsed from the external model's JSON: each field
is `some` exactly when the key is present in the dict. -/
structure RawInsight where
  type : Option String
  level : Option String
  title : Option String
  message : Option String
deriving DecidableEq

/-- `AnalyticsService._fallback_insights`. -/
def fallback_insights : List InsightOut :=
  [{ type := "info", level := none, title := "Insights Unavailable",
     message := "Unable to generate AI insights at this time. Check the Analytics tab for detailed data." }]

/-- The per-insight validation step inside `_call_gemini_for_insights`:
requires the `type`, `title` and `message` keys, coerces an unrecognized
type to `info`, and truncates title/message to 50/200 characters. -/
def validateInsight (i : RawInsight) : Option InsightOut :=
  match i.type, i.title, i.message with
  | some t, some ti, some msg =>
    some { type := if t = "warning" ∨ t = "info" ∨ t = "success" then t else "info",
           level := i.level, title := pyTake ti 50, message := pyTake msg 200 }
  | _, _, _ => none

/-- `AnalyticsService._call_gemini_for_insights` after the external call:
`none` stands for every failure path (no client, vendor error, timeout,
unparseable JSON), `some l` for a parsed `insights` list.  The Python
function catches all exceptions, so it is total, as is this model. -/
def call_gemini_for_insights (response : Option (List RawInsight)) : List InsightOut :=
  match response with
  | none => fallback_insights
  | some insights =>
    let valid := (insights.take 3).filterMap validateInsight
    if valid.isEmpty then fallback_insights else valid

/-! ## Pulse Trigger Gate (`AnalyticsService._should_regenerate_insights`,
`generate_class_pulse`) -/

/-- Regeneration thresholds (`MIN_NEW_SESSIONS_FOR_REGEN`,
`MIN_NEW_STRUGGLES_FOR_REGEN`). -/
def MIN_NEW_SESSIONS_FOR_REGEN : ℤ := 3

def MIN_NEW_STRUGGLES_FOR_REGEN : ℤ := 5

/-- The `dataSnapshot` block of a stored daily-insights document. -/
structure DataSnapshot where
  totalSessions : ℕ
  totalStruggles : ℕ
deriving DecidableEq

/-- A `teachers/{id}/dailyInsights/{date}` document. -/
structure DailyInsightsDoc where
  insights : List InsightOut
  generatedAt : ℤ
  stillValidAt : ℤ
  dataSnapshot : DataSnapshot
deriving DecidableEq

/-- `AnalyticsService._should_regenerate_insights`, given the stored
document for today (if any) and the freshly computed current totals. -/
def should_regenerate_insights (existing : Option DailyInsightsDoc)
    (currentSessions currentStruggles : ℕ) : Bool × String :=
  match existing with
  | none => (true, "No existing insights for today")
  | some doc =>
    let newSessions : ℤ := (currentSessions : ℤ) - (doc.dataSnapshot.totalSessions : ℤ)
    let newStruggles : ℤ := (currentStruggles : ℤ) - (doc.dataSnapshot.totalStruggles : ℤ)
    if MIN_NEW_SESSIONS_FOR_REGEN ≤ newSessions then
      (true, toString newSessions ++ " new sessions since last generation")
    else if MIN_NEW_STRUGGLES_FOR_REGEN ≤ newStruggles then
      (true, toString newStruggles ++ " new struggles since last generation")
    else
      (false, "Only " ++ toString newSessions ++ " new sessions and " ++ toString newStruggles
        ++ " new struggles (thresholds: 3/5)")

/-- Outcome classification of one `generate_class_pulse` call. -/
inductive PulseAction where
  | regenerated
  | refreshedTimestampOnly
  | emptyNoData
  | emptyNoActivity
deriving DecidableEq

/-- `AnalyticsService.generate_class_pulse`, modelled as a step on today's
stored document.  `currentSessions`/`currentStruggles` are the totals the
analytics pass computes, `newInsights` is what the narrator would return
on the regeneration path (an external call). -/
def generate_class_pulse (force : Bool) (existing : Option DailyInsightsDoc)
    (currentSessions currentStruggles : ℕ) (now : ℤ) (newInsights : List InsightOut) :
    Option DailyInsightsDoc × PulseAction :=
  if force = false ∧ (should_regenerate_insights existing currentSessions currentStruggles).1 = false then
    match existing with
    | some doc => (some { doc with stillValidAt := now }, .refreshedTimestampOnly)
    | none => (none, .emptyNoData)
  else if currentSessions = 0 then (existing, .emptyNoActivity)
  else (some { insights := newInsights, generatedAt := now, stillValidAt := now,
               dataSnapshot := { totalSessions := currentSessions, totalStruggles := currentStruggles } },
        .regenerated)

/-! ## Analytics record model.  Each structure mirrors a Firestore document
dictionary: a field is `some` exactly when the key is present. -/

structure Mission where
  title : Option String
  targetLevel : Option String
deriving DecidableEq

structure Session where
  missionId : Option String
  userId : Option String
  stars : Option ℕ
deriving DecidableEq

/-- A `sessionSummaries` document (duration in seconds). -/
structure Summary where
  stars : Option ℕ
  duration : Option ℚ
deriving DecidableEq

structure UserDoc where
  displayName : Option String
  level : Option String
  lastSessionAt : Option ℤ
deriving DecidableEq

/-- An element of `_query_struggles`' result: a `reviewItems` document with
the injected `userId`/`id`.  `word` is the legacy struggles-schema field,
absent from new-schema review items. -/
structure StruggleRec where
  id : String
  userId : Option String
  missionId : Option String
  errorType : Option String
  severity : Option ℤ
  userSentence : Option String
  correction : Option String
  word : Option String
deriving DecidableEq

def CEFR_LEVELS : List String := ["A1", "A2", "B1", "B2", "C1", "C2"]

/-- `mission_map.get(session.get('missionId'), {}).get('targetLevel', 'B1')`. -/
def missionTargetLevel (missionMap : List (String × Mission)) (mid : Option String) : String :=
  match mid with
  | none => "B1"
  | some m =>
    match alookup m missionMap with
    | none => "B1"
    | some d => d.targetLevel.getD "B1"

/-- `users.get(uid, {}).get('level', 'B1')`. -/
def userLevelOf (users : List (String × UserDoc)) (uid : Option String) : String :=
  match uid with
  | none => "B1"
  | some u =>
    match alookup u users with
    | none => "B1"
    | some d => d.level.getD "B1"

/-- `users.get(uid, {}).get('displayName', 'Student')`. -/
def userDisplayName (users : List (String × UserDoc)) (uid : Option String) : String :=
  match uid with
  | none => "Student"
  | some u =>
    match alookup u users with
    | none => "Student"
    | some d => d.displayName.getD "Student"

/-! ### `AnalyticsService._aggregate_lessons` -/

/-- The per-mission accumulator dict entry inside `_aggregate_lessons`.
`userIds` is a Python set used only for membership, modelled as a
first-occurrence list. -/
structure LessonStats where
  completions : ℕ
  stars : List ℕ
  reviewItems : List StruggleRec
  userIds : List String
deriving DecidableEq

def emptyLessonStats : LessonStats :=
  { completions := 0, stars := [], reviewItems := [], userIds := [] }

/-- The first loop of `_aggregate_lessons`: count completions, collect
truthy star values and truthy user ids per mission id. -/
def addSessionToStats (st : List (String × LessonStats)) (s : Session) :
    List (String × LessonStats) :=
  if truthyStr s.missionId then
    aupsert (s.missionId.getD "") (fun o =>
      let d := o.getD emptyLessonStats
      { d with
        completions := d.completions + 1,
        stars := d.stars ++ (match s.stars with
          | some k => if k ≠ 0 then [k] else []
          | none => []),
        userIds := (match s.userId with
          | some u => if u ≠ "" ∧ u ∉ d.userIds then d.userIds ++ [u] else d.userIds
          | none => d.userIds) }) st
  else st

/-- The fallback attribution: append the item to the first lesson (in dict
insertion order) whose user set contains the item's user, then stop. -/
def attachToFirstLesson (uid : String) (item : StruggleRec) :
    List (String × LessonStats) → List (String × LessonStats)
  | [] => []
  | (mid, d) :: rest =>
    if uid ∈ d.userIds then (mid, { d with reviewItems := d.reviewItems ++ [item] }) :: rest
    else (mid, d) :: attachToFirstLesson uid item rest

/-- The review-item linking loop of `_aggregate_lessons`: direct
`missionId` match when that mission is in the stats dict, otherwise the
first-lesson fallback. -/
def attributeReviewItem (st : List (String × LessonStats)) (item : StruggleRec) :
    List (String × LessonStats) :=
  if truthyStr item.missionId ∧ (alookup (item.missionId.getD "") st).isSome then
    aupsert (item.missionId.getD "") (fun o =>
      let d := o.getD emptyLessonStats
      { d with reviewItems := d.reviewItems ++ [item] }) st
  else if truthyStr item.userId then
    attachToFirstLesson (item.userId.getD "") item st
  else st

/-- `item.get('correction', item.get('userSentence', ''))[:n]`. -/
def displayTextOf (item : StruggleRec) (n : ℕ) : String :=
  pyTake (match item.correction with
    | some c => c
    | none => item.userSentence.getD "") n

/-- The per-lesson correction frequency dict (40-character display text). -/
def countCorrections (items : List StruggleRec) : List (String × ℕ) :=
  items.foldl (fun acc item =>
    let t := displayTextOf item 40
    if t ≠ "" then aupsert t (fun o => o.getD 0 + 1) acc else acc) []

/-- One entry of the lesson rollup returned by `_aggregate_lessons`. -/
structure LessonOut where
  missionId : String
  title : String
  completions : ℕ
  avgStars : ℚ
  warning : Bool
  struggleCount : ℕ
  topStruggles : List (String × ℕ)
deriving DecidableEq

/-- `AnalyticsService._aggregate_lessons`. -/
def aggregate_lessons (sessions : List Session) (missionMap : List (String × Mission))
    (reviewItems : List StruggleRec) : List LessonOut :=
  let stats := reviewItems.foldl attributeReviewItem (sessions.foldl addSessionToStats [])
  let lessons := stats.map (fun kv =>
    let mid := kv.1
    let s := kv.2
    let avg : ℚ :=
      if s.stars.isEmpty then 0
      else ((s.stars.map (fun k => (k : ℚ))).sum) / (s.stars.length : ℚ)
    let top := (pySort (fun a b => decide (b.2 ≤ a.2)) (countCorrections s.reviewItems)).take 5
    { missionId := mid,
      title := (match alookup mid missionMap with
        | none => "Unknown"
        | some m => m.title.getD "Unknown"),
      completions := s.completions,
      avgStars := pyRound avg 1,
      warning := decide (avg < 3) && decide (3 ≤ s.completions),
      struggleCount := s.reviewItems.length,
      topStruggles := top })
  (pySort (fun a b => decide (b.completions ≤ a.completions)) lessons).take 10

/-! ### `AnalyticsService._aggregate_struggles` -/

/-- The accumulator dict entry inside `_aggregate_struggles`. -/
structure StruggleCount where
  count : ℕ
  type : String
  severities : List ℤ
deriving DecidableEq

/-- One entry of the top-struggles rollup. -/
structure StruggleOut where
  text : String
  type : String
  count : ℕ
  severity : String
deriving DecidableEq

/-- `AnalyticsService._aggregate_struggles`. -/
def aggregate_struggles (reviewItems : List StruggleRec) : List StruggleOut :=
  let counts : List (String × StruggleCount) := reviewItems.foldl (fun acc item =>
    let text := displayTextOf item 50
    if text ≠ "" then
      aupsert text (fun o =>
        let d := o.getD { count := 0, type := "Vocabulary", severities := [] }
        { count := d.count + 1,
          type := item.errorType.getD "Vocabulary",
          severities := d.severities ++ [item.severity.getD 5] }) acc
    else acc) []
  let result := counts.map (fun kv =>
    let d := kv.2
    let avgSeverity : ℚ :=
      if d.severities.isEmpty then 5
      else ((d.severities.map (fun v => (v : ℚ))).sum) / (d.severities.length : ℚ)
    let sev := if 7 ≤ avgSeverity then "high" else if 4 ≤ avgSeverity then "medium" else "low"
    { text := kv.1, type := d.type, count := d.count, severity := sev })
  (pySort (fun a b => decide (b.count ≤ a.count)) result).take 15

/-! ### `AnalyticsService._aggregate_students` and the per-level star average -/

/-- The star filter of `_aggregate_by_level`/`_aggregate_students`:
`[s.get('stars', 0) for s in summaries if s.get('stars')]` then mean,
0 when no value survives. -/
def bucket_avg_stars (summaries : List Summary) : ℚ :=
  let stars : List ℕ := summaries.filterMap (fun s =>
    match s.stars with
    | some k => if k ≠ 0 then some k else none
    | none => none)
  if stars.isEmpty then 0
  else ((stars.map (fun k => (k : ℚ))).sum) / (stars.length : ℚ)

structure StudentOut where
  userId : String
  displayName : String
  lastActive : Option ℤ
  activityStatus : String
  sessionCount : ℕ
  avgStars : ℚ
  advancementCandidate : Bool
  levelMismatch : Bool
deriving DecidableEq

def ACTIVE_THRESHOLD : ℤ := 3

def WARNING_THRESHOLD : ℤ := 7

def ADVANCEMENT_MIN_SESSIONS : ℕ := 5

def ADVANCEMENT_MIN_AVG_STARS : ℚ := 9 / 2

/-- Ordering key used to sort students: `x.get('lastActive') or ''`
descending.  ISO-8601 strings of UTC instants compare like the instants,
with a missing timestamp below every present one. -/
def optTimeLe : Option ℤ → Option ℤ → Bool
  | none, _ => true
  | some _, none => false
  | some x, some y => decide (x ≤ y)

/-- `AnalyticsService._aggregate_students`. -/
def aggregate_students (userIds : List String) (users : List (String × UserDoc))
    (sessionSummaries : List (String × List Summary)) (now : ℤ) : List StudentOut :=
  let students := userIds.map (fun uid =>
    let user := (alookup uid users).getD { displayName := none, level := none, lastSessionAt := none }
    let summaries := (alookup uid sessionSummaries).getD []
    let days : ℤ := match user.lastSessionAt with
      | some last => Int.fdiv (now - last) 86400
      | none => 999
    let status :=
      if days ≤ ACTIVE_THRESHOLD then "active"
      else if days ≤ WARNING_THRESHOLD then "warning"
      else "inactive"
    let avg := bucket_avg_stars summaries
    { userId := uid,
      displayName := user.displayName.getD "Student",
      lastActive := user.lastSessionAt,
      activityStatus := status,
      sessionCount := summaries.length,
      avgStars := pyRound avg 1,
      advancementCandidate :=
        decide (ADVANCEMENT_MIN_SESSIONS ≤ summaries.length) &&
          decide (ADVANCEMENT_MIN_AVG_STARS ≤ avg),
      levelMismatch := false })
  pySort (fun a b => optTimeLe b.lastActive a.lastActive) students

/-! ### `AnalyticsService._aggregate_by_level` -/

/-- One per-level accumulator bucket of `_aggregate_by_level`. -/
structure LevelData where
  sessions : List Session
  prevSessions : List Session
  userIds : List String
  struggles : List StruggleRec
  summaries : List Summary
  prevSummaries : List Summary
deriving DecidableEq

def emptyLevelData : LevelData :=
  { sessions := [], prevSessions := [], userIds := [], struggles := [],
    summaries := [], prevSummaries := [] }

/-- The output block for one level. -/
structure LevelBlock where
  studentCount : ℕ
  sessionCount : ℕ
  avgStars : ℚ
  totalPracticeMinutes : ℤ
  wordsMastered : ℕ
  trends : String × String
  lessons : List LessonOut
  students : List StudentOut
  topStruggles : List StruggleOut
deriving DecidableEq

/-- `AnalyticsService._aggregate_by_level`.  `masteredCounts` carries the
result of the per-user `_count_mastered_words` store reads (count of
`reviewItems` with `mastered == True`), default 0. -/
def aggregate_by_level (missionMap : List (String × Mission))
    (sessions prevSessions : List Session) (users : List (String × UserDoc))
    (sessionSummaries prevSummaries : List (String × List Summary))
    (struggles : List StruggleRec) (masteredCounts : List (String × ℕ)) (now : ℤ) :
    List (String × LevelBlock) :=
  let ld0 := CEFR_LEVELS.map (fun l => (l, emptyLevelData))
  let ld1 := sessions.foldl (fun acc s =>
    let tl := missionTargetLevel missionMap s.missionId
    if (alookup tl acc).isSome then
      aupsert tl (fun o =>
        let d := o.getD emptyLevelData
        { d with
          sessions := d.sessions ++ [s],
          userIds := (match s.userId with
            | some u => if u ≠ "" ∧ u ∉ d.userIds then d.userIds ++ [u] else d.userIds
            | none => d.userIds) }) acc
    else acc) ld0
  let ld2 := prevSessions.foldl (fun acc s =>
    let tl := missionTargetLevel missionMap s.missionId
    if (alookup tl acc).isSome then
      aupsert tl (fun o =>
        let d := o.getD emptyLevelData
        { d with prevSessions := d.prevSessions ++ [s] }) acc
    else acc) ld1
  let ld3 := struggles.foldl (fun acc s =>
    let ul := userLevelOf users s.userId
    if (alookup ul acc).isSome then
      aupsert ul (fun o =>
        let d := o.getD emptyLevelData
        { d with struggles := d.struggles ++ [s] }) acc
    else acc) ld2
  let ld4 := sessionSummaries.foldl (fun acc kv =>
    let ul := userLevelOf users (some kv.1)
    if (alookup ul acc).isSome then
      aupsert ul (fun o =>
        let d := o.getD emptyLevelData
        { d with summaries := d.summaries ++ kv.2 }) acc
    else acc) ld3
  let ld5 := prevSummaries.foldl (fun acc kv =>
    let ul := userLevelOf users (some kv.1)
    if (alookup ul acc).isSome then
      aupsert ul (fun o =>
        let d := o.getD emptyLevelData
        { d with prevSummaries := d.prevSummaries ++ kv.2 }) acc
    else acc) ld4
  ld5.filterMap (fun kv =>
    let d := kv.2
    if d.sessions.isEmpty ∧ d.userIds.isEmpty then none
    else
      let sessionCount := d.sessions.length
      let prevSessionCount := d.prevSessions.length
      let avgStars := bucket_avg_stars d.summaries
      let prevAvgStars := bucket_avg_stars d.prevSummaries
      let minutes : ℚ := (d.summaries.map (fun s => (s.duration.getD 0) / 60)).sum
      some (kv.1,
        { studentCount := d.userIds.length,
          sessionCount := sessionCount,
          avgStars := pyRound avgStars 2,
          totalPracticeMinutes := roundHalfEven minutes,
          wordsMastered := (d.userIds.map (fun u => (alookup u masteredCounts).getD 0)).sum,
          trends := calculate_trends sessionCount prevSessionCount avgStars prevAvgStars,
          lessons := aggregate_lessons d.sessions missionMap d.struggles,
          students := aggregate_students d.userIds users sessionSummaries now,
          topStruggles := aggregate_struggles d.struggles }))

/-! ### `AnalyticsService._calculate_totals` -/

structure Totals where
  studentCount : ℕ
  sessionCount : ℕ
  avgStars : ℚ
  totalPracticeMinutes : ℤ
  wordsMastered : ℕ
deriving DecidableEq

/-- `AnalyticsService._calculate_totals`: sums plus an average of the
(rounded) per-level averages over levels with a nonzero average. -/
def calculate_totals (byLevel : List (String × LevelBlock)) : Totals :=
  let acc := byLevel.foldl
    (fun (t : Totals × ℚ × ℕ) kv =>
      let d := kv.2
      (({ t.1 with
          studentCount := t.1.studentCount + d.studentCount,
          sessionCount := t.1.sessionCount + d.sessionCount,
          totalPracticeMinutes := t.1.totalPracticeMinutes + d.totalPracticeMinutes,
          wordsMastered := t.1.wordsMastered + d.wordsMastered }),
       (if 0 < d.avgStars then t.2.1 + d.avgStars else t.2.1),
       (if 0 < d.avgStars then t.2.2 + 1 else t.2.2)))
    ({ studentCount := 0, sessionCount := 0, avgStars := 0,
       totalPracticeMinutes := 0, wordsMastered := 0 }, 0, 0)
  { acc.1 with
    avgStars := if 0 < acc.2.2 then pyRound (acc.2.1 / (acc.2.2 : ℚ)) 2 else 0 }

/-! ### `AnalyticsService._detect_cross_level_insights` -/

structure MismatchOut where
  userId : Option String
  displayName : String
  currentLevel : String
  evidence : String
deriving DecidableEq

structure UStruggleOut where
  text : String
  affectedLevels : List String
  totalCount : ℕ
deriving DecidableEq

/-- `advancementCandidates` is initialized to `[]` and never appended to
by the source; its element type is immaterial. -/
structure CrossInsights where
  advancementCandidates : List MismatchOut
  levelMismatches : List MismatchOut
  universalStruggles : List UStruggleOut
deriving DecidableEq

def MISMATCH_STRUGGLE_THRESHOLD : ℕ := 3

/-- The source compares `s.get('severity') == 'significant'`: an integer
(or missing) severity from the reviewItems schema is never equal to a
string in Python, so the comparison is false. -/
def severityEqSignificantString (_severity : Option ℤ) : Bool := false

/-- Grouping of struggles by `s.get('userId')` (possibly `None`),
preserving first-occurrence dict order. -/
def groupByUser (struggles : List StruggleRec) : List (Option String × List StruggleRec) :=
  struggles.foldl (fun acc s =>
    match acc.find? (fun kv => kv.1 == s.userId) with
    | some _ => acc.map (fun kv => if kv.1 == s.userId then (kv.1, kv.2 ++ [s]) else kv)
    | none => acc ++ [(s.userId, [s])]) []

/-- `AnalyticsService._detect_cross_level_insights` (the session/mission
arguments of the source are unused by its body). -/
def detect_cross_level_insights (struggles : List StruggleRec)
    (users : List (String × UserDoc)) : CrossInsights :=
  let mismatches := (groupByUser struggles).foldl (fun acc kv =>
    if MISMATCH_STRUGGLE_THRESHOLD ≤ kv.2.length then
      let sigCount := (kv.2.filter (fun s => severityEqSignificantString s.severity)).length
      if 2 ≤ sigCount then
        acc ++ [{ userId := kv.1,
                  displayName := userDisplayName users kv.1,
                  currentLevel := userLevelOf users kv.1,
                  evidence := toString sigCount ++ " significant struggles" }]
      else acc
    else acc) []
  let struggleLevels : List (String × List String) := struggles.foldl (fun acc s =>
    let word := s.word.getD ""
    if word ≠ "" then
      let lvl := userLevelOf users s.userId
      aupsert word (fun o =>
        let ls := o.getD []
        if lvl ∈ ls then ls else ls ++ [lvl]) acc
    else acc) []
  let universal := struggleLevels.foldl (fun acc kv =>
    if 2 ≤ kv.2.length then
      acc ++ [{ text := kv.1,
                affectedLevels := pySort (fun a b => decide (a ≤ b)) kv.2,
                totalCount := (struggles.filter (fun s => s.word == some kv.1)).length }]
    else acc) []
  { advancementCandidates := [],
    levelMismatches := mismatches,
    universalStruggles :=
      (pySort (fun a b => decide (b.affectedLevels.length ≤ a.affectedLevels.length)) universal).take 10 }

/-! ### `AnalyticsService._aggregate_costs` -/

/-- A usage record (`users/{uid}/sessions` or legacy `tokenUsage`),
already filtered to the window by the fetch layer. -/
structure TokenRec where
  inputTokens : Option ℕ
  outputTokens : Option ℕ
deriving DecidableEq

structure StudentCost where
  userId : String
  displayName : String
  totalCost : ℚ
  sessionCount : ℕ
  avgCostPerSession : ℚ
  inputTokens : ℕ
  outputTokens : ℕ
deriving DecidableEq

structure Costs where
  totalCost : ℚ
  inputTokens : ℕ
  outputTokens : ℕ
  costPerStudent : ℚ
  dailyCost : ℚ
  monthlyCost : ℚ
deriving DecidableEq

def COST_PER_1M_INPUT_TOKENS : ℚ := 3

def COST_PER_1M_OUTPUT_TOKENS : ℚ := 12

/-- `AnalyticsService._calculate_cost`. -/
def calculate_cost (inputTokens outputTokens : ℕ) : ℚ :=
  (inputTokens : ℚ) / 1000000 * COST_PER_1M_INPUT_TOKENS +
    (outputTokens : ℚ) / 1000000 * COST_PER_1M_OUTPUT_TOKENS

/-- Sum of token fields and record count over one user's usage records. -/
def sumTokens (recs : List TokenRec) : ℕ × ℕ × ℕ :=
  recs.foldl (fun acc r =>
    (acc.1 + r.inputTokens.getD 0, acc.2.1 + r.outputTokens.getD 0, acc.2.2 + 1)) (0, 0, 0)

/-- `AnalyticsService._aggregate_costs`.  `tokenNew` is the per-user
`users/{uid}/sessions` window query result, `tokenOld` the legacy
`tokenUsage` fallback, consulted only when the new query returned no
records. -/
def aggregate_costs (userIds : List String)
    (tokenNew tokenOld : List (String × List TokenRec))
    (users : List (String × UserDoc)) (period : String) (startTime endTime : ℤ) :
    Costs × List StudentCost :=
  let acc := userIds.foldl (fun (a : ℕ × ℕ × List StudentCost) uid =>
    let n := sumTokens ((alookup uid tokenNew).getD [])
    let t := if n.2.2 = 0 then sumTokens ((alookup uid tokenOld).getD []) else n
    if 0 < t.2.2 ∨ 0 < t.1 ∨ 0 < t.2.1 then
      let userCost := calculate_cost t.1 t.2.1
      (a.1 + t.1, a.2.1 + t.2.1,
       a.2.2 ++ [{ userId := uid,
                   displayName := userDisplayName users (some uid),
                   totalCost := pyRound userCost 4,
                   sessionCount := t.2.2,
                   avgCostPerSession := if 0 < t.2.2 then pyRound (userCost / (t.2.2 : ℚ)) 4 else 0,
                   inputTokens := t.1,
                   outputTokens := t.2.1 }])
    else a) (0, 0, [])
  let studentCosts := pySort (fun a b => decide (b.totalCost ≤ a.totalCost)) acc.2.2
  let totalCost := calculate_cost acc.1 acc.2.1
  let studentCount := (studentCosts.filter (fun s => decide (0 < s.totalCost))).length
  let daysInPeriod : ℤ :=
    if period = "week" then 7
    else if period = "month" then 30
    else max 1 (Int.fdiv (endTime - startTime) 86400)
  let dailyCost : ℚ := if 0 < daysInPeriod then totalCost / (daysInPeriod : ℚ) else 0
  let monthlyCost := dailyCost * 30
  ({ totalCost := pyRound totalCost 4,
     inputTokens := acc.1,
     outputTokens := acc.2.1,
     costPerStudent := if 0 < studentCount then pyRound (totalCost / (studentCount : ℚ)) 4 else 0,
     dailyCost := pyRound dailyCost 4,
     monthlyCost := pyRound monthlyCost 4 }, studentCosts)

/-! ### `AnalyticsService.get_teacher_analytics` and `_empty_response` -/

/-- Pre-fetched query results for one analytics request (the Firestore
reads are I/O and enter the model as data). -/
structure Fetched where
  missions : List (String × Mission)
  sessions : List Session
  prevSessions : List Session
  users : List (String × UserDoc)
  sessionSummaries : List (String × List Summary)
  prevSummaries : List (String × List Summary)
  struggles : List StruggleRec
  masteredCounts : List (String × ℕ)
  tokenNew : List (String × List TokenRec)
  tokenOld : List (String × List TokenRec)
deriving DecidableEq

/-- Tagged value type for the response dictionary entries. -/
inductive RVal where
  | str (s : String)
  | time (t : ℤ)
  | levels (b : List (String × LevelBlock))
  | tot (t : Totals)
  | cross (c : CrossInsights)
  | costsV (c : Costs)
  | studentCostsV (l : List StudentCost)
deriving DecidableEq

/-- `AnalyticsService._empty_response` (its `generatedAt` is
`datetime.now().isoformat()`, modelled as the instant). -/
def empty_response (period : String) (now : ℤ) : List (String × RVal) :=
  [("period", .str period), ("generatedAt", .time now),
   ("byLevel", .levels []),
   ("totals", .tot { studentCount := 0, sessionCount := 0, avgStars := 0,
                     totalPracticeMinutes := 0, wordsMastered := 0 }),
   ("crossLevelInsights", .cross { advancementCandidates := [], levelMismatches := [],
                                   universalStruggles := [] })]

/-- `AnalyticsService.get_teacher_analytics` on pre-fetched data.  The
Python function is total on fetched data: the no-missions case returns the
zeroed `_empty_response` rather than raising. -/
def get_teacher_analytics (f : Fetched) (period : String) (now : ℤ) : List (String × RVal) :=
  let range := get_time_range period now
  if f.missions.isEmpty then empty_response period now
  else
    let userIds := dedupKeepFirst (f.sessions.filterMap (fun s =>
      if truthyStr s.userId then s.userId else none))
    let byLevel := aggregate_by_level f.missions f.sessions f.prevSessions f.users
      f.sessionSummaries f.prevSummaries f.struggles f.masteredCounts now
    let totals := calculate_totals byLevel
    let cross := detect_cross_level_insights f.struggles f.users
    let costsPair := aggregate_costs userIds f.tokenNew f.tokenOld f.users period range.1 range.2
    [("period", .str period), ("generatedAt", .time now),
     ("byLevel", .levels byLevel), ("totals", .tot totals),
     ("crossLevelInsights", .cross cross), ("costs", .costsV costsPair.1),
     ("studentCosts", .studentCostsV costsPair.2)]

/-! ## Review service (`ReviewService`).  Documents of the
`users/{uid}/reviewItems` and `users/{uid}/reviewLessons` subcollections. -/

/-- A stored `reviewItems` document. -/
structure RItem where
  errorType : Option String
  severity : Option ℤ
  userSentence : Option String
  correction : Option String
  explanation : Option String
  reviewCount : Option ℕ
  mastered : Option Bool
  lastReviewedAt : Option ℤ
  audioUrl : Option String
  includedInReviews : Option (List String)
deriving DecidableEq

/-- The `ReviewItem` dataclass built by `get_eligible_review_items`. -/
structure ReviewItem where
  id : String
  error_type : String
  severity : ℤ
  user_sentence : String
  correction : String
  explanation : Option String
  review_count : ℕ
  mastered : Bool
  last_reviewed_at : Option ℤ
  audio_url : Option String
deriving DecidableEq

def MIN_STRUGGLES : ℕ := 3

def MAX_STRUGGLES : ℕ := 8

def REVIEW_COOLDOWN_DAYS : ℤ := 7

/-- After 3 reviews an item is marked mastered. -/
def MAX_REVIEW_COUNT : ℕ := 3

/-- The dataclass built from one eligible document: field defaults as in
`get_eligible_review_items` (a falsy severity — missing or 0 — becomes 5). -/
def toReviewItem (idAndDoc : String × RItem) : ReviewItem :=
  { id := idAndDoc.1,
    error_type := idAndDoc.2.errorType.getD "Vocabulary",
    severity := (match idAndDoc.2.severity with
      | none => 5
      | some 0 => 5
      | some v => v),
    user_sentence := idAndDoc.2.userSentence.getD "",
    correction := idAndDoc.2.correction.getD "",
    explanation := idAndDoc.2.explanation,
    review_count := idAndDoc.2.reviewCount.getD 0,
    mastered := (idAndDoc.2.mastered.getD false),
    last_reviewed_at := idAndDoc.2.lastReviewedAt,
    audio_url := idAndDoc.2.audioUrl }

/-- The per-document filter and conversion of `get_eligible_review_items`:
the Firestore query returns only documents whose `mastered` field is
`false`; documents with `reviewCount >= 3` or a `lastReviewedAt` within
the 7-day cooldown (more recent than `now` minus 7 days) are skipped. -/
def eligibleConvert (now : ℤ) (idAndDoc : String × RItem) : Option ReviewItem :=
  if idAndDoc.2.mastered = some false then
    if MAX_REVIEW_COUNT ≤ idAndDoc.2.reviewCount.getD 0 then none
    else
      match idAndDoc.2.lastReviewedAt with
      | some t =>
        if now - REVIEW_COOLDOWN_DAYS * 86400 < t then none
        else some (toReviewItem idAndDoc)
      | none => some (toReviewItem idAndDoc)
  else none

/-- `ReviewService.get_eligible_review_items`: filter, sort by
`(-severity, review_count)` (stable), cap at `MAX_STRUGGLES`. -/
def get_eligible_review_items (items : List (String × RItem)) (now : ℤ) : List ReviewItem :=
  let eligible := items.filterMap (eligibleConvert now)
  (pySort (fun a b =>
    decide (b.severity < a.severity ∨ (a.severity = b.severity ∧ a.review_count ≤ b.review_count)))
    eligible).take MAX_STRUGGLES

/-- `'HAS AUDIO' if item.audio_url else 'no audio'`. -/
def audioStatus (item : ReviewItem) : String :=
  if truthyStr item.audio_url then "HAS AUDIO" else "no audio"

/-- One block of the `\x7b\x7bstruggles\x7d\x7d` section built by
`generate_review_prompt_from_items`. -/
def itemDescription (item : ReviewItem) : String :=
  let desc := "- **" ++ item.correction ++ "** (" ++ audioStatus item ++ ")\n"
  let desc := desc ++ "  - ID: `" ++ item.id ++ "`\n"
  let desc := desc ++ "  - Student said: \"" ++ item.user_sentence ++ "\"\n"
  let desc := desc ++ "  - Error type: " ++ item.error_type
  if truthyStr item.explanation then desc ++ "\n  - Why: " ++ item.explanation.getD "" else desc

/-- `ReviewService._build_item_reference_section`. -/
def build_item_reference_section (items : List ReviewItem) : String :=
  String.intercalate "\n"
    (["## REVIEW ITEM REFERENCE (for function calls)", "",
      "Use these exact IDs when calling play_student_audio or mark_item_mastered:", ""] ++
     items.map (fun item =>
       "- ID: `" ++ item.id ++ "` | \"" ++ item.correction ++ "\" | " ++ audioStatus item))

/-- `ReviewService.generate_review_prompt_from_items`.  `template` is the
result of the external `get_review_template` read (Firestore document or
the built-in default). -/
def generate_review_prompt_from_items (items : List ReviewItem) (level template : String) :
    String :=
  let strugglesText := String.intercalate "\n" (items.map itemDescription)
  let itemReference := build_item_reference_section items
  let prompt := template.replace "\x7b\x7blevel\x7d\x7d" level
  let prompt := prompt.replace "\x7b\x7bstruggles\x7d\x7d" strugglesText
  prompt.replace "\x7b\x7bitemReference\x7d\x7d" itemReference

/-- A stored `reviewLessons` document, as written by
`create_review_lesson`. -/
structure ReviewLessonDoc where
  id : String
  userId : String
  weekStart : String
  status : String
  generatedPrompt : String
  targetStruggles : List String
  struggleWords : List String
  userLevel : String
  estimatedMinutes : ℕ
  createdAt : ℤ
  completedAt : Option ℤ
  sessionId : Option String
  stars : Option ℕ
deriving DecidableEq

/-- The `ReviewLesson` dataclass returned by `create_review_lesson`. -/
structure ReviewLesson where
  id : String
  user_id : String
  week_start : String
  status : String
  generated_prompt : String
  target_struggles : List String
  struggle_words : List String
  user_level : String
  estimated_minutes : ℕ
  created_at : ℤ
deriving DecidableEq

/-- One user's review-related Firestore state. -/
structure UserStore where
  reviewLessons : List (String × ReviewLessonDoc)
  reviewItems : List (String × RItem)
deriving DecidableEq

/-- The single `item_ref.update(update_data)` of `create_review_lesson`:
one atomic write carrying the incremented `reviewCount`, `lastReviewedAt`,
the `ArrayUnion` on `includedInReviews`, and — exactly when the new count
reaches `MAX_REVIEW_COUNT` — `mastered = True`. -/
def updateReviewItemDoc (now : ℤ) (reviewId : String) (r : ReviewItem) (d : RItem) : RItem :=
  let newReviewCount := r.review_count + 1
  { d with
    reviewCount := some newReviewCount,
    lastReviewedAt := some now,
    includedInReviews := some
      (let cur := d.includedInReviews.getD []
       if reviewId ∈ cur then cur else cur ++ [reviewId]),
    mastered := if MAX_REVIEW_COUNT ≤ newReviewCount then some true else d.mastered }

/-- Apply an update to the document with the given id. -/
def updateItemInStore (st : List (String × RItem)) (itemId : String) (f : RItem → RItem) :
    List (String × RItem) :=
  st.map (fun kv => if kv.1 = itemId then (kv.1, f kv.2) else kv)

/-- `ReviewService.create_review_lesson` for one user.  `weekStart` is
`_get_week_start()` (clock), `level` the `get_user_level` read and
`template` the `get_review_template` read. -/
def create_review_lesson (st : UserStore) (userId weekStart : String) (now : ℤ)
    (level template : String) : Option ReviewLesson × UserStore :=
  let reviewId := "week-" ++ weekStart
  if (alookup reviewId st.reviewLessons).isSome then (none, st)
  else
    let reviewItems := get_eligible_review_items st.reviewItems now
    if reviewItems.length < MIN_STRUGGLES then (none, st)
    else
      let generatedPrompt := generate_review_prompt_from_items reviewItems level template
      let displayWords := reviewItems.map (fun r => pyTake r.correction 50)
      let review : ReviewLesson :=
        { id := reviewId, user_id := userId, week_start := weekStart, status := "ready",
          generated_prompt := generatedPrompt,
          target_struggles := reviewItems.map (fun r => r.id),
          struggle_words := displayWords, user_level := level,
          estimated_minutes := 5, created_at := now }
      let reviewData : ReviewLessonDoc :=
        { id := reviewId, userId := userId, weekStart := weekStart, status := "ready",
          generatedPrompt := generatedPrompt,
          targetStruggles := reviewItems.map (fun r => r.id),
          struggleWords := displayWords, userLevel := level,
          estimatedMinutes := 5, createdAt := now,
          completedAt := none, sessionId := none, stars := none }
      let st1 : UserStore :=
        { st with reviewLessons := aupsert reviewId (fun _ => reviewData) st.reviewLessons }
      let st2 : UserStore :=
        { st1 with reviewItems :=
            (reviewItems.foldl
              (fun acc r => updateItemInStore acc r.id (updateReviewItemDoc now reviewId r))
              st1.reviewItems) }
      (some review, st2)

/-! ## Spec-side definitions used for refinement comparisons -/

/-- Modelled from the spec: the mean of the star values over exactly the
summaries with a present, non-zero star value (zero/missing excluded from
numerator and denominator), 0 when no such entry exists. -/
def specMeanPresentNonzeroStars (summaries : List Summary) : ℚ :=
  let vals : List ℕ := (summaries.filterMap Summary.stars).filter (fun k => k ≠ 0)
  if vals.isEmpty then 0
  else ((vals.map (fun k => (k : ℚ))).sum) / (vals.length : ℚ)

/-- The per-entry mastery invariant of the data model: `mastered = true`
implies the stored review count reached the mastery threshold. -/
def RItemInv (v : RItem) : Prop :=
  v.mastered = some true → MAX_REVIEW_COUNT ≤ v.reviewCount.getD 0

instance (v : RItem) : Decidable (RItemInv v) := by
  unfold RItemInv
  infer_instance

/-! ## Concrete instances used by witnesses and counterexamples -/

/-- A stored daily-insights document with snapshot totals 10 sessions /
20 struggles. -/
def pulseDoc10 : DailyInsightsDoc :=
  { insights := [], generatedAt := 0, stillValidAt := 0,
    dataSnapshot := { totalSessions := 10, totalStruggles := 20 } }

def cexMissionMap : List (String × Mission) :=
  [("m1", { title := some "Lesson One", targetLevel := some "B1" }),
   ("m2", { title := some "Lesson Two", targetLevel := some "B1" })]

def cexSessionA : Session := { missionId := some "m1", userId := some "u1", stars := some 4 }

def cexSessionB : Session := { missionId := some "m2", userId := some "u2", stars := some 4 }

/-- A new-schema review item: display text in `correction`/`userSentence`,
no legacy `word` field. -/
def cexItemA : StruggleRec :=
  { id := "r1", userId := some "u1", missionId := none, errorType := some "Grammar",
    severity := some 5, userSentence := some "I goed to school",
    correction := some "I went to school", word := none }

def cexItemB : StruggleRec :=
  { id := "r2", userId := some "u2", missionId := none, errorType := some "Grammar",
    severity := some 6, userSentence := some "I goed to school",
    correction := some "I went to school", word := none }

def cexUsers : List (String × UserDoc) :=
  [("u1", { displayName := some "Ann", level := some "A1", lastSessionAt := none }),
   ("u2", { displayName := some "Bo", level := some "A2", lastSessionAt := none })]

/-- Fetched data with no missions at all. -/
def fetchNoMissions : Fetched :=
  { missions := [], sessions := [], prevSessions := [], users := [],
    sessionSummaries := [], prevSummaries := [], struggles := [],
    masteredCounts := [], tokenNew := [], tokenOld := [] }

/-- Fetched data with one mission (the non-empty branch). -/
def fetchOneMission : Fetched :=
  { missions := [("m1", { title := some "T", targetLevel := some "B1" })],
    sessions := [], prevSessions := [], users := [],
    sessionSummaries := [], prevSummaries := [], struggles := [],
    masteredCounts := [], tokenNew := [], tokenOld := [] }

/-- The stored `i1` document before the run: two reviews behind it,
not yet mastered. -/
def witnessItem1Doc : RItem :=
  { errorType := some "Grammar", severity := some 5, userSentence := some "s1",
    correction := some "c1", explanation := none, reviewCount := some 2,
    mastered := some false, lastReviewedAt := none, audioUrl := none,
    includedInReviews := none }

/-- Three eligible review items (counts 2, 0, 1), none mastered. -/
def witnessItemStore : List (String × RItem) :=
  [("i1", witnessItem1Doc),
   ("i2", { errorType := some "Grammar", severity := some 7, userSentence := some "s2",
            correction := some "c2", explanation := none, reviewCount := some 0,
            mastered := some false, lastReviewedAt := none, audioUrl := none,
            includedInReviews := none }),
   ("i3", { errorType := some "Vocabulary", severity := some 2, userSentence := some "s3",
            correction := some "c3", explanation := none, reviewCount := some 1,
            mastered := some false, lastReviewedAt := none, audioUrl := none,
            includedInReviews := none })]

def witnessStore : UserStore := { reviewLessons := [], reviewItems := witnessItemStore }

/-- The `i1` document after the run that creates the weekly lesson: the
third review increments its count to 3 and masters it in the same write. -/
def witnessItem1After : RItem :=
  { errorType := some "Grammar", severity := some 5, userSentence := some "s1",
    correction := some "c1", explanation := none, reviewCount := some 3,
    mastered := some true, lastReviewedAt := some 0, audioUrl := none,
    includedInReviews := some ["week-2025-01-06"] }

/-- A stored review lesson for week `2025-01-06` (used to exercise the
already-exists skip path). -/
def witnessLessonDoc : ReviewLessonDoc :=
  { id := "week-2025-01-06", userId := "u", weekStart := "2025-01-06", status := "ready",
    generatedPrompt := "p", targetStruggles := [], struggleWords := [], userLevel := "B1",
    estimatedMinutes := 5, createdAt := 0, completedAt := none, sessionId := none,
    stars := none }

def witnessStoreWithLesson : UserStore :=
  { reviewLessons := [("week-2025-01-06", witnessLessonDoc)], reviewItems := witnessItemStore }

/-- The result of one `create_review_lesson` run on the three-item store. -/
def witnessRun : Option ReviewLesson × UserStore :=
  create_review_lesson witnessStore "u" "2025-01-06" 0 "B1" "T"

/-! # Theorems -/

/-! ## Shared helper lemmas about the stable sort -/

theorem mem_pyInsert (le : α → α → Bool) (a x : α) (l : List α) :
    x ∈ pyInsert le a l ↔ x = a ∨ x ∈ l := by
  induction l with
  | nil => simp [pyInsert]
  | cons b l ih =>
    by_cases h : le a b = true
    · simp [pyInsert, h]
    · simp only [pyInsert, if_neg h, List.mem_cons, ih]
      tauto

theorem mem_pySort (le : α → α → Bool) (x : α) (l : List α) :
    x ∈ pySort le l ↔ x ∈ l := by
  induction l with
  | nil => simp [pySort]
  | cons b l ih => simp [pySort, mem_pyInsert, ih]

theorem pyInsert_pairwise (le : α → α → Bool)
    (htot : ∀ a b, le a b = true ∨ le b a = true)
    (htrans : ∀ a b c, le a b = true → le b c = true → le a c = true)
    (a : α) (l : List α) (hl : l.Pairwise (fun x y => le x y = true)) :
    (pyInsert le a l).Pairwise (fun x y => le x y = true) := by
  induction l with
  | nil => simp [pyInsert]
  | cons b l ih =>
    rcases List.pairwise_cons.1 hl with ⟨hb, hl2⟩
    by_cases h : le a b = true
    · simp only [pyInsert, if_pos h]
      refine List.pairwise_cons.2 ⟨?_, hl⟩
      intro x hx
      rcases List.mem_cons.1 hx with rfl | hx
      · exact h
      · exact htrans a b x h (hb x hx)
    · simp only [pyInsert, if_neg h]
      refine List.pairwise_cons.2 ⟨?_, ih hl2⟩
      intro x hx
      rcases (mem_pyInsert le a x l).1 hx with hxa | hx
      · rw [hxa]
        rcases htot a b with h2 | h2
        · exact absurd h2 h
        · exact h2
      · exact hb x hx

theorem pySort_pairwise (le : α → α → Bool)
    (htot : ∀ a b, le a b = true ∨ le b a = true)
    (htrans : ∀ a b c, le a b = true → le b c = true → le a c = true)
    (l : List α) : (pySort le l).Pairwise (fun x y => le x y = true) := by
  induction l with
  | nil => simp [pySort]
  | cons b l ih => exact pyInsert_pairwise le htot htrans b (pySort le l) ih

theorem roundHalfEven_intCast (n : ℤ) : roundHalfEven ((n : ℚ)) = n := by
  unfold roundHalfEven
  rw [Int.floor_intCast]
  norm_num

theorem alookup_aupsert_self (k : String) (f : Option β → β) (l : List (String × β)) :
    alookup k (aupsert k f l) ≠ none := by
  induction l with
  | nil => simp [aupsert, alookup]
  | cons kv l ih =>
    by_cases h : kv.1 = k
    · simp [aupsert, alookup, h]
    · simpa [aupsert, alookup, h] using ih

/-! ## C6: Time Window Resolver -/

/-- C6: for week and month the previous window ends exactly where the
current window starts and has the same duration; for all-time the current
window starts at the fixed epoch floor and the previous window is the
`none` sentinel. -/
theorem time_window_resolver_spec :
    (∀ period : String, (period = "week" ∨ period = "month") → ∀ now : ℤ,
      ∃ ps pe, get_previous_period period (get_time_range period now).1 = some (ps, pe) ∧
        pe = (get_time_range period now).1 ∧
        (get_time_range period now).2 - (get_time_range period now).1 = pe - ps) ∧
    (∀ now : ℤ, (get_time_range "all-time" now).1 = EPOCH_FLOOR_2020) ∧
    (∀ currentStart : ℤ, get_previous_period "all-time" currentStart = none) := by
  refine ⟨?_, fun now => rfl, fun currentStart => rfl⟩
  rintro period (rfl | rfl) now
  · refine ⟨now - 7 * 86400 - 7 * 86400, now - 7 * 86400, rfl, rfl, ?_⟩
    show now - (now - 7 * 86400) = now - 7 * 86400 - (now - 7 * 86400 - 7 * 86400)
    ring
  · refine ⟨now - 30 * 86400 - 30 * 86400, now - 30 * 86400, rfl, rfl, ?_⟩
    show now - (now - 30 * 86400) = now - 30 * 86400 - (now - 30 * 86400 - 30 * 86400)
    ring

/-- C6 witness: the week period at `now = 0`. -/
theorem time_window_resolver_spec_witness :
    ∃ ps pe, get_previous_period "week" (get_time_range "week" 0).1 = some (ps, pe) ∧
      pe = (get_time_range "week" 0).1 ∧
      (get_time_range "week" 0).2 - (get_time_range "week" 0).1 = pe - ps :=
  time_window_resolver_spec.1 "week" (Or.inl rfl) 0

/-! ## C5: trend-string formatting -/

/-- C5: the session trend carries an explicit `+` for non-negative change,
with the previous-count-0 special cases `+100%`/`0%`; the star trend
carries an explicit `+` for non-negative deltas, with the previous-average-0
special cases `+current`/`0`; in particular `(5, prev 0) ↦ "+100%"` and
`(5, prev 10) ↦ "-50%"`. -/
theorem trends_formatting_spec :
    ∀ (curr prev : ℕ) (cs ps : ℚ),
      (prev = 0 → 0 < curr → (calculate_trends curr prev cs ps).1 = "+100%") ∧
      (prev = 0 → curr = 0 → (calculate_trends curr prev cs ps).1 = "0%") ∧
      (0 < prev → prev ≤ curr →
        ∃ rest, (calculate_trends curr prev cs ps).1 = "+" ++ rest) ∧
      (0 < ps → ps ≤ cs → ∃ rest, (calculate_trends curr prev cs ps).2 = "+" ++ rest) ∧
      (ps = 0 → 0 < cs → (calculate_trends curr prev cs ps).2 = "+" ++ fmt1 cs) ∧
      (ps = 0 → cs = 0 → (calculate_trends curr prev cs ps).2 = "0") ∧
      (calculate_trends 5 0 cs ps).1 = "+100%" ∧
      (calculate_trends 5 10 cs ps).1 = "-50%" := by
  intro curr prev cs ps
  refine ⟨?_, ?_, ?_, ?_, ?_, ?_, ?_, ?_⟩
  · rintro rfl h
    simp [calculate_trends, h]
  · rintro rfl rfl
    simp [calculate_trends]
  · intro hprev hle
    have hchange : (0 : ℚ) ≤ ((curr : ℚ) - (prev : ℚ)) / (prev : ℚ) * 100 := by
      have h1 : (0 : ℚ) < (prev : ℚ) := by exact_mod_cast hprev
      have h2 : (0 : ℚ) ≤ (curr : ℚ) - (prev : ℚ) := by
        have : (prev : ℚ) ≤ (curr : ℚ) := by exact_mod_cast hle
        linarith
      positivity
    simp only [calculate_trends, if_pos hprev, if_pos hchange]
    exact ⟨_, rfl⟩
  · intro hps hle
    have hchange : (0 : ℚ) ≤ cs - ps := by linarith
    simp only [calculate_trends, if_pos hps, if_pos hchange]
    exact ⟨_, rfl⟩
  · rintro rfl h
    simp [calculate_trends, h]
  · rintro rfl rfl
    simp [calculate_trends]
  · norm_num [calculate_trends]
  · norm_num [calculate_trends]
    rw [show ((-50 : ℚ)) = (((-50 : ℤ) : ℚ)) by norm_num, roundHalfEven_intCast]
    rfl

/-- C5 witness: the two concrete session-trend examples and the
previous-average-0 star case at `current = 4`. -/
theorem trends_formatting_spec_witness :
    (calculate_trends 5 0 0 0).1 = "+100%" ∧ (calculate_trends 5 10 0 0).1 = "-50%" ∧
      (calculate_trends 0 0 4 0).2 = "+" ++ fmt1 4 :=
  ⟨(trends_formatting_spec 5 0 0 0).1 rfl (by norm_num),
   (trends_formatting_spec 5 10 0 0).2.2.2.2.2.2.2,
   (trends_formatting_spec 0 0 4 0).2.2.2.2.1 rfl (by norm_num)⟩

/-! ## C1: Pulse Trigger Gate -/

/-- C1: with a stored snapshot and `force = false`, the gate says
regenerate exactly when current minus stored sessions is at least 3 or
current minus stored struggles is at least 5; snapshot `(10, 20)` stays
fresh at current `(12, 20)` and goes stale at `(13, 20)`; and on the fresh
path with an existing document, the stored document is rewritten with only
`stillValidAt` changed and no regeneration happens. -/
theorem pulse_trigger_gate_spec :
    ∀ (doc : DailyInsightsDoc) (curS curT : ℕ),
      ((should_regenerate_insights (some doc) curS curT).1 = true ↔
        (3 ≤ (curS : ℤ) - (doc.dataSnapshot.totalSessions : ℤ) ∨
          5 ≤ (curT : ℤ) - (doc.dataSnapshot.totalStruggles : ℤ))) ∧
      (doc.dataSnapshot = { totalSessions := 10, totalStruggles := 20 } →
        (should_regenerate_insights (some doc) 12 20).1 = false ∧
        (should_regenerate_insights (some doc) 13 20).1 = true) ∧
      (∀ (now : ℤ) (newInsights : List InsightOut),
        (should_regenerate_insights (some doc) curS curT).1 = false →
        generate_class_pulse false (some doc) curS curT now newInsights =
          (some { doc with stillValidAt := now }, PulseAction.refreshedTimestampOnly)) := by
  intro doc curS curT
  refine ⟨?_, ?_, ?_⟩
  · simp only [should_regenerate_insights, MIN_NEW_SESSIONS_FOR_REGEN,
      MIN_NEW_STRUGGLES_FOR_REGEN]
    split_ifs with h1 h2 <;> simp [*]
  · intro h
    constructor <;>
      simp [should_regenerate_insights, h, MIN_NEW_SESSIONS_FOR_REGEN,
        MIN_NEW_STRUGGLES_FOR_REGEN]
  · intro now newInsights h
    simp [generate_class_pulse, h]

/-- C1 witness: the snapshot `(10, 20)` examples and the refresh-only
transition at current `(12, 20)`. -/
theorem pulse_trigger_gate_spec_witness :
    (should_regenerate_insights (some pulseDoc10) 12 20).1 = false ∧
      (should_regenerate_insights (some pulseDoc10) 13 20).1 = true ∧
      generate_class_pulse false (some pulseDoc10) 12 20 99 [] =
        (some { pulseDoc10 with stillValidAt := 99 }, PulseAction.refreshedTimestampOnly) :=
  ⟨((pulse_trigger_gate_spec pulseDoc10 12 20).2.1 rfl).1,
   ((pulse_trigger_gate_spec pulseDoc10 13 20).2.1 rfl).2,
   (pulse_trigger_gate_spec pulseDoc10 12 20).2.2 99 []
     ((pulse_trigger_gate_spec pulseDoc10 12 20).2.1 rfl).1⟩

/-! ## C7: per-bucket star average -/

theorem starsFilter_eq (ss : List Summary) :
    (ss.filterMap (fun s => match s.stars with
      | some k => if k ≠ 0 then some k else none
      | none => none)) = (ss.filterMap Summary.stars).filter (fun k => k ≠ 0) := by
  induction ss with
  | nil => rfl
  | cons s ss ih =>
    cases h : s.stars with
    | none => simpa [List.filterMap_cons, h] using ih
    | some k =>
      by_cases hk : k = 0
      · subst hk
        simpa [List.filterMap_cons, h] using ih
      · simpa [List.filterMap_cons, h, hk] using ih

/-- C7: the per-level star average is the mean over exactly the summaries
with a present, non-zero star value; `[3, null, 5]` averages to 4 (and its
displayed two-decimal rounding is also 4), not 8/3. -/
theorem avg_stars_excludes_zero_and_missing :
    (∀ ss : List Summary, bucket_avg_stars ss = specMeanPresentNonzeroStars ss) ∧
      bucket_avg_stars [{ stars := some 3, duration := none },
        { stars := none, duration := none },
        { stars := some 5, duration := none }] = 4 ∧
      pyRound (bucket_avg_stars [{ stars := some 3, duration := none },
        { stars := none, duration := none },
        { stars := some 5, duration := none }]) 2 = 4 ∧
      bucket_avg_stars [{ stars := some 3, duration := none },
        { stars := none, duration := none },
        { stars := some 5, duration := none }] ≠ 8 / 3 := by
  have h4 : bucket_avg_stars [{ stars := some 3, duration := none },
      { stars := none, duration := none },
      { stars := some 5, duration := none }] = 4 := by
    simp [bucket_avg_stars, List.filterMap_cons]
    norm_num
  refine ⟨?_, h4, ?_, ?_⟩
  · intro ss
    unfold bucket_avg_stars specMeanPresentNonzeroStars
    rw [starsFilter_eq]
  · rw [h4]
    unfold pyRound
    rw [show ((4 : ℚ) * (10 : ℚ) ^ (2 : ℕ)) = (((400 : ℤ) : ℚ)) by norm_num,
      roundHalfEven_intCast]
    norm_num
  · rw [h4]
    norm_num

/-! ## C8: Insight Narrator validation -/

theorem pyTake_length_le (s : String) (n : ℕ) : (pyTake s n).length ≤ n := by
  simp only [pyTake, String.length, List.length_take]
  exact min_le_left _ _

theorem validateInsight_some (j : RawInsight) (i : InsightOut)
    (h : validateInsight j = some i) :
    j.type.isSome ∧ j.title.isSome ∧ j.message.isSome ∧
      (i.type = "warning" ∨ i.type = "info" ∨ i.type = "success") ∧
      i.title.length ≤ 50 ∧ i.message.length ≤ 200 := by
  obtain ⟨jt, jl, jti, jm⟩ := j
  cases jt with
  | none => exact absurd h (by simp [validateInsight])
  | some t =>
    cases jti with
    | none => exact absurd h (by simp [validateInsight])
    | some ti =>
      cases jm with
      | none => exact absurd h (by simp [validateInsight])
      | some m =>
        simp only [validateInsight, Option.some.injEq] at h
        subst h
        refine ⟨rfl, rfl, rfl, ?_, pyTake_length_le ti 50, pyTake_length_le m 200⟩
        by_cases ht : t = "warning" ∨ t = "info" ∨ t = "success"
        · simp [ht]
        · simp [ht]

theorem fallback_member_props (i : InsightOut) (h : i ∈ fallback_insights) :
    (i.type = "warning" ∨ i.type = "info" ∨ i.type = "success") ∧
      i.title.length ≤ 50 ∧ i.message.length ≤ 200 := by
  rcases List.mem_singleton.1 h with rfl
  refine ⟨Or.inr (Or.inl rfl), ?_, ?_⟩ <;> decide

/-- C8: the narrator keeps only insight objects carrying all of type,
title and message, coerces unknown types to `info`, truncates title and
message to 50/200 characters, returns at most 3 insights, and on any
failed call or empty validated list returns the single static fallback
insight (the model is a total function: nothing is raised). -/
theorem insight_narrator_validation :
    ∀ response : Option (List RawInsight),
      (call_gemini_for_insights response).length ≤ 3 ∧
      (∀ i ∈ call_gemini_for_insights response,
        (i.type = "warning" ∨ i.type = "info" ∨ i.type = "success") ∧
        i.title.length ≤ 50 ∧ i.message.length ≤ 200) ∧
      (response = none → call_gemini_for_insights response = fallback_insights) ∧
      (∀ l, response = some l → (∀ j ∈ l, validateInsight j = none) →
        call_gemini_for_insights response = fallback_insights) ∧
      (∀ l, response = some l → ∀ i ∈ call_gemini_for_insights response,
        call_gemini_for_insights response = fallback_insights ∨
        ∃ j ∈ l, j.type.isSome ∧ j.title.isSome ∧ j.message.isSome ∧
          validateInsight j = some i) := by
  intro response
  cases response with
  | none =>
    refine ⟨by decide, ?_, fun _ => rfl, ?_, ?_⟩
    · intro i hi
      exact fallback_member_props i hi
    · intro l hl
      cases hl
    · intro l hl
      cases hl
  | some l =>
    have he : call_gemini_for_insights (some l) =
        (if ((l.take 3).filterMap validateInsight).isEmpty then fallback_insights
         else (l.take 3).filterMap validateInsight) := rfl
    refine ⟨?_, ?_, ?_, ?_, ?_⟩
    · rw [he]
      by_cases h : ((l.take 3).filterMap validateInsight).isEmpty
      · rw [if_pos h]
        decide
      · rw [if_neg h]
        calc ((l.take 3).filterMap validateInsight).length
            ≤ (l.take 3).length := List.length_filterMap_le _ _
          _ ≤ 3 := List.length_take_le 3 l
    · intro i hi
      rw [he] at hi
      by_cases h : ((l.take 3).filterMap validateInsight).isEmpty
      · rw [if_pos h] at hi
        exact fallback_member_props i hi
      · rw [if_neg h] at hi
        rcases List.mem_filterMap.1 hi with ⟨j, _, hj⟩
        exact (validateInsight_some j i hj).2.2.2
    · intro hl
      cases hl
    · rintro l2 hl2 hall
      cases hl2
      rw [he]
      have hnil : (l.take 3).filterMap validateInsight = [] := by
        rw [List.filterMap_eq_nil_iff]
        intro j hj
        exact hall j (List.take_subset 3 l hj)
      rw [hnil]
      rfl
    · rintro l2 hl2 i hi
      cases hl2
      rw [he] at hi
      by_cases h : ((l.take 3).filterMap validateInsight).isEmpty
      · exact Or.inl (by rw [he, if_pos h])
      · right
        rw [if_neg h] at hi
        rcases List.mem_filterMap.1 hi with ⟨j, hjmem, hj⟩
        have hp := validateInsight_some j i hj
        exact ⟨j, List.take_subset 3 l hjmem, hp.1, hp.2.1, hp.2.2.1, hj⟩

/-- C8 witness: a failed call and a list whose only element lacks the
`type` field both yield the static fallback. -/
theorem insight_narrator_validation_witness :
    call_gemini_for_insights none = fallback_insights ∧
      call_gemini_for_insights
        (some [{ type := none, level := none, title := some "t", message := some "m" }]) =
        fallback_insights :=
  ⟨(insight_narrator_validation none).2.2.1 rfl,
   (insight_narrator_validation
       (some [{ type := none, level := none, title := some "t", message := some "m" }])).2.2.2.1
     _ rfl (by decide)⟩

/-! ## C2: determinism and tie-breaking of the rankings -/

theorem pySort_pairwise_keyDesc (k : α → ℕ) (l : List α) :
    (pySort (fun a b => decide (k b ≤ k a)) l).Pairwise (fun a b => k b ≤ k a) := by
  have h := pySort_pairwise (fun a b => decide (k b ≤ k a))
    (fun a b => by
      rcases le_total (k b) (k a) with h | h
      · exact Or.inl (decide_eq_true h)
      · exact Or.inr (decide_eq_true h))
    (fun a b c h1 h2 =>
      decide_eq_true (le_trans (of_decide_eq_true h2) (of_decide_eq_true h1))) l
  exact h.imp (fun hx => of_decide_eq_true hx)

/-- C2 (amended): the aggregator is a pure function of its (ordered)
input, the lesson ranking and top-struggle rankings are sorted by their
count keys in non-increasing order, and each lesson's own top-struggle
list is sorted likewise; ties are kept in first-occurrence order of the
input rather than being broken by a secondary key. -/
theorem level_aggregator_rankings_sorted :
    ∀ (sessions : List Session) (missionMap : List (String × Mission))
      (items : List StruggleRec),
      (aggregate_lessons sessions missionMap items).Pairwise
        (fun a b => b.completions ≤ a.completions) ∧
      (aggregate_struggles items).Pairwise (fun a b => b.count ≤ a.count) ∧
      ∀ l ∈ aggregate_lessons sessions missionMap items,
        l.topStruggles.Pairwise (fun a b => b.2 ≤ a.2) := by
  intro sessions missionMap items
  refine ⟨?_, ?_, ?_⟩
  · unfold aggregate_lessons
    exact List.Pairwise.sublist (List.take_sublist 10 _)
      (pySort_pairwise_keyDesc (fun x : LessonOut => x.completions) _)
  · unfold aggregate_struggles
    exact List.Pairwise.sublist (List.take_sublist 15 _)
      (pySort_pairwise_keyDesc (fun x : StruggleOut => x.count) _)
  · intro l hl
    unfold aggregate_lessons at hl
    have h1 := List.take_subset 10 _ hl
    rw [mem_pySort] at h1
    rcases List.mem_map.1 h1 with ⟨kv, _, rfl⟩
    exact List.Pairwise.sublist (List.take_sublist 5 _)
      (pySort_pairwise_keyDesc (fun x : String × ℕ => x.2) _)

/-- C2 counterexample: two session lists holding the same records in
opposite order produce the two tied lessons in opposite ranking order, so
the tie is broken by incidental input order, not by a secondary key. -/
theorem level_aggregator_tiebreak_counterexample :
    [cexSessionB, cexSessionA] = [cexSessionA, cexSessionB].reverse ∧
      (aggregate_lessons [cexSessionA, cexSessionB] cexMissionMap []).map
        LessonOut.completions = [1, 1] ∧
      (aggregate_lessons [cexSessionA, cexSessionB] cexMissionMap []).map
        LessonOut.missionId = ["m1", "m2"] ∧
      (aggregate_lessons [cexSessionB, cexSessionA] cexMissionMap []).map
        LessonOut.missionId = ["m2", "m1"] := by
  refine ⟨rfl, ?_, ?_, ?_⟩ <;> rfl

/-! ## C3: the universal-struggles pass and the legacy `word` field -/

/-- C3: two review items sharing the identical display text
(`correction`) whose owning users sit at two different levels produce an
empty `universalStruggles` list, because the pass groups by the legacy
`word` field, which new-schema review items do not carry. -/
theorem universal_struggles_word_field_failing_input :
    (detect_cross_level_insights [cexItemA, cexItemB] cexUsers).universalStruggles = [] ∧
      cexItemA.correction = cexItemB.correction ∧
      truthyStr cexItemA.correction = true ∧
      cexItemA.word = none ∧ cexItemB.word = none ∧
      userLevelOf cexUsers cexItemA.userId = "A1" ∧
      userLevelOf cexUsers cexItemB.userId = "A2" :=
  ⟨rfl, rfl, rfl, rfl, rfl, rfl, rfl⟩

/-! ## C9: shape of the empty analytics response -/

/-- C9 counterexample: the non-empty response carries the `costs` and
`studentCosts` keys, the empty response does not, so the empty response
does not have every key a non-empty response carries. -/
theorem empty_response_missing_cost_keys :
    "costs" ∈ (get_teacher_analytics fetchOneMission "week" 0).map Prod.fst ∧
      "studentCosts" ∈ (get_teacher_analytics fetchOneMission "week" 0).map Prod.fst ∧
      "costs" ∉ (get_teacher_analytics fetchNoMissions "week" 0).map Prod.fst ∧
      "studentCosts" ∉ (get_teacher_analytics fetchNoMissions "week" 0).map Prod.fst := by
  refine ⟨?_, ?_, ?_, ?_⟩ <;> decide

/-- C9 (amended): with no missions the analytics operation returns the
zeroed `_empty_response` — empty `byLevel`, zeroed totals and empty
cross-level insight lists, with the keys `period`, `generatedAt`,
`byLevel`, `totals`, `crossLevelInsights` — without raising, but this
shape omits the `costs`/`studentCosts` keys of non-empty responses. -/
theorem empty_analytics_response_shape :
    ∀ (f : Fetched) (period : String) (now : ℤ),
      f.missions = [] →
      get_teacher_analytics f period now = empty_response period now ∧
      (empty_response period now).map Prod.fst =
        ["period", "generatedAt", "byLevel", "totals", "crossLevelInsights"] ∧
      alookup "totals" (empty_response period now) =
        some (.tot { studentCount := 0, sessionCount := 0, avgStars := 0,
                     totalPracticeMinutes := 0, wordsMastered := 0 }) ∧
      alookup "byLevel" (empty_response period now) = some (.levels []) ∧
      alookup "crossLevelInsights" (empty_response period now) =
        some (.cross { advancementCandidates := [], levelMismatches := [],
                       universalStruggles := [] }) := by
  intro f period now h
  refine ⟨?_, rfl, rfl, rfl, rfl⟩
  simp [get_teacher_analytics, h]

/-- C9 witness: the no-missions fetch at the week period. -/
theorem empty_analytics_response_shape_witness :
    get_teacher_analytics fetchNoMissions "week" 0 = empty_response "week" 0 :=
  (empty_analytics_response_shape fetchNoMissions "week" 0 rfl).1

/-! ## C4 and C10: helper lemmas on the review flow -/

theorem pyInsert_perm (le : α → α → Bool) (a : α) (l : List α) :
    (pyInsert le a l).Perm (a :: l) := by
  induction l with
  | nil => exact List.Perm.refl _
  | cons b l ih =>
    by_cases h : le a b = true
    · simp only [pyInsert, if_pos h]
      exact List.Perm.refl _
    · simp only [pyInsert, if_neg h]
      exact (ih.cons b).trans (List.Perm.swap a b l)

theorem pySort_perm (le : α → α → Bool) (l : List α) : (pySort le l).Perm l := by
  induction l with
  | nil => exact List.Perm.refl _
  | cons b l ih => exact (pyInsert_perm le b (pySort le l)).trans (ih.cons b)

theorem nodup_assoc_unique {β : Type _} (s : List (String × β))
    (hnd : (s.map Prod.fst).Nodup) (k : String) (v v2 : β)
    (h1 : (k, v) ∈ s) (h2 : (k, v2) ∈ s) : v = v2 := by
  induction s with
  | nil => cases h1
  | cons p s ih =>
    rcases List.nodup_cons.1 hnd with ⟨hp, hnd2⟩
    rcases List.mem_cons.1 h1 with h1 | h1 <;> rcases List.mem_cons.1 h2 with h2 | h2
    · rw [← h1] at h2
      exact congrArg Prod.snd h2.symm
    · exfalso
      apply hp
      rw [← h1]
      exact List.mem_map.2 ⟨(k, v2), h2, rfl⟩
    · exfalso
      apply hp
      rw [← h2]
      exact List.mem_map.2 ⟨(k, v), h1, rfl⟩
    · exact ih hnd2 h1 h2

theorem eligibleConvert_facts (now : ℤ) (p : String × RItem) (r : ReviewItem)
    (h : eligibleConvert now p = some r) :
    r.id = p.1 ∧ p.2.mastered = some false ∧ r.review_count = p.2.reviewCount.getD 0 ∧
      r.review_count < MAX_REVIEW_COUNT := by
  rw [eligibleConvert] at h
  by_cases h1 : p.2.mastered = some false
  · rw [if_pos h1] at h
    by_cases h2 : MAX_REVIEW_COUNT ≤ p.2.reviewCount.getD 0
    · rw [if_pos h2] at h
      cases h
    · rw [if_neg h2] at h
      have hr : r = toReviewItem p := by
        cases hlast : p.2.lastReviewedAt with
        | none =>
          simp only [hlast] at h
          exact (Option.some_inj.1 h).symm
        | some t =>
          simp only [hlast] at h
          by_cases h3 : now - REVIEW_COOLDOWN_DAYS * 86400 < t
          · rw [if_pos h3] at h
            cases h
          · rw [if_neg h3] at h
            exact (Option.some_inj.1 h).symm
      subst hr
      refine ⟨rfl, h1, rfl, ?_⟩
      show p.2.reviewCount.getD 0 < MAX_REVIEW_COUNT
      simp only [MAX_REVIEW_COUNT] at h2 ⊢
      omega
  · rw [if_neg h1] at h
    cases h

theorem mem_eligible (items : List (String × RItem)) (now : ℤ) (r : ReviewItem)
    (h : r ∈ get_eligible_review_items items now) :
    ∃ p ∈ items, eligibleConvert now p = some r := by
  unfold get_eligible_review_items at h
  have h2 := List.take_subset _ _ h
  rw [mem_pySort] at h2
  exact List.mem_filterMap.1 h2

theorem filterMap_eligible_ids_sublist (now : ℤ) (items : List (String × RItem)) :
    ((items.filterMap (eligibleConvert now)).map (fun r => r.id)).Sublist
      (items.map Prod.fst) := by
  induction items with
  | nil => simp
  | cons p items ih =>
    cases h : eligibleConvert now p with
    | none =>
      simp only [List.filterMap_cons, h, List.map_cons]
      exact ih.cons p.1
    | some r =>
      have hid : r.id = p.1 := (eligibleConvert_facts now p r h).1
      simp only [List.filterMap_cons, h, List.map_cons, hid]
      exact ih.cons₂ p.1

theorem eligible_ids_nodup (items : List (String × RItem)) (now : ℤ)
    (hnd : (items.map Prod.fst).Nodup) :
    ((get_eligible_review_items items now).map (fun r => r.id)).Nodup := by
  unfold get_eligible_review_items
  have h1 : ((items.filterMap (eligibleConvert now)).map (fun r => r.id)).Nodup :=
    (filterMap_eligible_ids_sublist now items).nodup hnd
  have h2 : ((pySort (fun a b =>
      decide (b.severity < a.severity ∨ (a.severity = b.severity ∧ a.review_count ≤ b.review_count)))
      (items.filterMap (eligibleConvert now))).map (fun r => r.id)).Nodup :=
    ((pySort_perm _ (items.filterMap (eligibleConvert now))).map
      (fun r : ReviewItem => r.id)).nodup_iff.2 h1
  rw [List.map_take]
  exact (List.take_sublist _ _).nodup h2

theorem updateReviewItemDoc_inv (now : ℤ) (reviewId : String) (r : ReviewItem) (d : RItem)
    (hm : d.mastered = some false) :
    RItemInv (updateReviewItemDoc now reviewId r d) := by
  unfold updateReviewItemDoc RItemInv
  intro h
  by_cases hc : MAX_REVIEW_COUNT ≤ r.review_count + 1
  · simp only [if_pos hc] at h ⊢
    simpa using hc
  · simp only [if_neg hc] at h
    rw [hm] at h
    cases h

theorem foldl_update_inv (now : ℤ) (reviewId : String) (rs : List ReviewItem) :
    ∀ s : List (String × RItem),
      (rs.map (fun r => r.id)).Nodup →
      (∀ p ∈ s, RItemInv p.2) →
      (∀ r ∈ rs, ∀ p ∈ s, p.1 = r.id → p.2.mastered = some false) →
      ∀ p ∈ rs.foldl
        (fun acc r => updateItemInStore acc r.id (updateReviewItemDoc now reviewId r)) s,
        RItemInv p.2 := by
  induction rs with
  | nil => intro s _ hQ _ p hp; exact hQ p hp
  | cons r0 rs ih =>
    intro s hnd hQ hmast p hp
    rcases List.nodup_cons.1 hnd with ⟨hr0, hnd2⟩
    refine ih (updateItemInStore s r0.id (updateReviewItemDoc now reviewId r0)) hnd2 ?_ ?_ p hp
    · intro q hq
      unfold updateItemInStore at hq
      rcases List.mem_map.1 hq with ⟨q0, hq0, hq0e⟩
      by_cases hid : q0.1 = r0.id
      · rw [if_pos hid] at hq0e
        rw [← hq0e]
        exact updateReviewItemDoc_inv now reviewId r0 q0.2
          (hmast r0 (List.mem_cons_self r0 rs) q0 hq0 hid)
      · rw [if_neg hid] at hq0e
        rw [← hq0e]
        exact hQ q0 hq0
    · intro r hr q hq hqid
      unfold updateItemInStore at hq
      rcases List.mem_map.1 hq with ⟨q0, hq0, hq0e⟩
      by_cases hid : q0.1 = r0.id
      · exfalso
        apply hr0
        rw [if_pos hid] at hq0e
        have hq1 : q.1 = q0.1 := by rw [← hq0e]
        have hre : r.id = r0.id := by rw [← hqid, hq1, hid]
        exact List.mem_map.2 ⟨r, hr, hre⟩
      · rw [if_neg hid] at hq0e
        rw [← hq0e]
        refine hmast r (List.mem_cons_of_mem r0 hr) q0 hq0 ?_
        rw [← hqid, ← hq0e]

theorem create_review_lesson_items (st : UserStore) (userId weekStart : String) (now : ℤ)
    (level template : String) :
    (create_review_lesson st userId weekStart now level template).2.reviewItems =
        st.reviewItems ∨
      (create_review_lesson st userId weekStart now level template).2.reviewItems =
        (get_eligible_review_items st.reviewItems now).foldl
          (fun acc r => updateItemInStore acc r.id
            (updateReviewItemDoc now ("week-" ++ weekStart) r)) st.reviewItems := by
  simp only [create_review_lesson]
  by_cases h1 : (alookup ("week-" ++ weekStart) st.reviewLessons).isSome
  · rw [if_pos h1]
    exact Or.inl rfl
  · rw [if_neg h1]
    by_cases h2 : (get_eligible_review_items st.reviewItems now).length < MIN_STRUGGLES
    · rw [if_pos h2]
      exact Or.inl rfl
    · rw [if_neg h2]
      exact Or.inr rfl

/-- C4: (a) if every stored review item satisfies the mastery invariant
(`mastered = true` implies `reviewCount` at the threshold) and document
ids are unique, then after a `create_review_lesson` run every stored item
still satisfies it; (b) the single update written per reviewed item
carries the incremented count, and exactly when that count reaches the
threshold the same update also sets `mastered = true` — counter and flag
travel in one atomic write. -/
theorem review_mastery_invariant :
    ∀ (st : UserStore) (userId weekStart : String) (now : ℤ) (level template : String)
      (rid : String) (r : ReviewItem) (d : RItem),
      ((st.reviewItems.map Prod.fst).Nodup →
        (∀ p ∈ st.reviewItems, RItemInv p.2) →
        ∀ p ∈ (create_review_lesson st userId weekStart now level template).2.reviewItems,
          RItemInv p.2) ∧
      ((updateReviewItemDoc now rid r d).reviewCount = some (r.review_count + 1) ∧
        (r.review_count + 1 = MAX_REVIEW_COUNT →
          (updateReviewItemDoc now rid r d).mastered = some true)) := by
  intro st userId weekStart now level template rid r d
  refine ⟨?_, rfl, ?_⟩
  · intro hnd hQ p hp
    rcases create_review_lesson_items st userId weekStart now level template with he | he
    · rw [he] at hp
      exact hQ p hp
    · rw [he] at hp
      refine foldl_update_inv now ("week-" ++ weekStart)
        (get_eligible_review_items st.reviewItems now) st.reviewItems
        (eligible_ids_nodup st.reviewItems now hnd) hQ ?_ p hp
      intro r2 hr2 q hq hqid
      rcases mem_eligible st.reviewItems now r2 hr2 with ⟨p0, hp0, hconv⟩
      rcases eligibleConvert_facts now p0 r2 hconv with ⟨hid0, hmast0, _, _⟩
      have : q.2 = p0.2 := by
        rcases q with ⟨qk, qv⟩
        rcases p0 with ⟨pk, pv⟩
        have hk : qk = pk := by
          simp only at hqid
          rw [hqid, hid0]
        rw [hk] at hq ⊢
        exact nodup_assoc_unique st.reviewItems hnd pk qv pv hq hp0
      rw [this]
      exact hmast0
  · intro h
    simp [updateReviewItemDoc, h]

/-- C4 witness: a store of three eligible items with counts 2, 0 and 1;
after the run the `i1` document holds `reviewCount = 3` and
`mastered = true`, and the single-update clauses applied to the `i1`
dataclass show the write carries `some 3` and `some true` together. -/
theorem review_mastery_invariant_witness :
    RItemInv witnessItem1After ∧
      (updateReviewItemDoc 0 "week-2025-01-06" (toReviewItem ("i1", witnessItem1Doc))
        witnessItem1Doc).reviewCount = some 3 ∧
      (updateReviewItemDoc 0 "week-2025-01-06" (toReviewItem ("i1", witnessItem1Doc))
        witnessItem1Doc).mastered = some true :=
  ⟨(review_mastery_invariant witnessStore "u" "2025-01-06" 0 "B1" "T" "week-2025-01-06"
      (toReviewItem ("i1", witnessItem1Doc)) witnessItem1Doc).1
      (by decide) (by decide) ("i1", witnessItem1After) (by decide),
   (review_mastery_invariant witnessStore "u" "2025-01-06" 0 "B1" "T" "week-2025-01-06"
      (toReviewItem ("i1", witnessItem1Doc)) witnessItem1Doc).2.1,
   (review_mastery_invariant witnessStore "u" "2025-01-06" 0 "B1" "T" "week-2025-01-06"
      (toReviewItem ("i1", witnessItem1Doc)) witnessItem1Doc).2.2 rfl⟩

/-! ## C10: frame conditions of `create_review_lesson` -/

/-- C10: both skip paths (existing weekly lesson, fewer than 3 eligible
items) return `none` and leave the whole user store untouched — no lesson
document and no review-item field changes; a `none` result never mutates
state; and after a successful creation the lesson document for that week
exists, so a second run for the same week returns `none` and changes
nothing — at most one review lesson per user per week. -/
theorem create_review_lesson_frame :
    ∀ (st : UserStore) (userId weekStart : String) (now : ℤ) (level template : String),
      ((alookup ("week-" ++ weekStart) st.reviewLessons).isSome →
        create_review_lesson st userId weekStart now level template = (none, st)) ∧
      ((get_eligible_review_items st.reviewItems now).length < MIN_STRUGGLES →
        create_review_lesson st userId weekStart now level template = (none, st)) ∧
      ((create_review_lesson st userId weekStart now level template).1 = none →
        (create_review_lesson st userId weekStart now level template).2 = st) ∧
      (∀ res st2, create_review_lesson st userId weekStart now level template =
          (some res, st2) →
        (alookup ("week-" ++ weekStart) st2.reviewLessons).isSome ∧
        create_review_lesson st2 userId weekStart now level template = (none, st2)) := by
  have key : ∀ (st : UserStore) (userId weekStart : String) (now : ℤ) (level template : String),
      (alookup ("week-" ++ weekStart) st.reviewLessons).isSome →
      create_review_lesson st userId weekStart now level template = (none, st) := by
    intro st userId weekStart now level template h
    simp only [create_review_lesson]
    rw [if_pos h]
  intro st userId weekStart now level template
  refine ⟨key st userId weekStart now level template, ?_, ?_, ?_⟩
  · intro h2
    simp only [create_review_lesson]
    by_cases h1 : (alookup ("week-" ++ weekStart) st.reviewLessons).isSome
    · rw [if_pos h1]
    · rw [if_neg h1, if_pos h2]
  · intro h
    simp only [create_review_lesson] at h ⊢
    by_cases h1 : (alookup ("week-" ++ weekStart) st.reviewLessons).isSome
    · rw [if_pos h1]
    · rw [if_neg h1] at h ⊢
      by_cases h2 : (get_eligible_review_items st.reviewItems now).length < MIN_STRUGGLES
      · rw [if_pos h2]
      · rw [if_neg h2] at h
        cases h
  · intro res st2 he
    have hlessons : (alookup ("week-" ++ weekStart) st2.reviewLessons).isSome := by
      simp only [create_review_lesson] at he
      by_cases h1 : (alookup ("week-" ++ weekStart) st.reviewLessons).isSome
      · rw [if_pos h1] at he
        cases he
      · rw [if_neg h1] at he
        by_cases h2 : (get_eligible_review_items st.reviewItems now).length < MIN_STRUGGLES
        · rw [if_pos h2] at he
          cases he
        · rw [if_neg h2] at he
          have hst2 := congrArg Prod.snd he
          simp only at hst2
          rw [← hst2]
          rw [Option.isSome_iff_ne_none]
          exact alookup_aupsert_self ("week-" ++ weekStart) _ st.reviewLessons
    exact ⟨hlessons, key st2 userId weekStart now level template hlessons⟩

/-- C10 witness: with a stored lesson for week `2025-01-06` the run
returns `None` and the store — lessons and review items alike — is
byte-identical; a second run right after a successful creation also
returns `None` without touching the new store. -/
theorem create_review_lesson_frame_witness :
    create_review_lesson witnessStoreWithLesson "u" "2025-01-06" 0 "B1" "T" =
        (none, witnessStoreWithLesson) ∧
      create_review_lesson witnessRun.2 "u" "2025-01-06" 0 "B1" "T" = (none, witnessRun.2) :=
  ⟨(create_review_lesson_frame witnessStoreWithLesson "u" "2025-01-06" 0 "B1" "T").1
      (by decide),
   ((create_review_lesson_frame witnessStore "u" "2025-01-06" 0 "B1" "T").2.2.2
      (witnessRun.1.get (by decide)) witnessRun.2
      (by rw [Option.some_get]; rfl)).2⟩

/-- C2 witness: the two concrete tied lessons are ranked sorted, and the
first emitted lesson's own top-struggle list is sorted. -/
theorem level_aggregator_rankings_sorted_witness :
    (aggregate_lessons [cexSessionA, cexSessionB] cexMissionMap []).Pairwise
        (fun a b => b.completions ≤ a.completions) ∧
      ((aggregate_lessons [cexSessionA, cexSessionB] cexMissionMap []).get
        ⟨0, by decide⟩).topStruggles.Pairwise (fun a b => b.2 ≤ a.2) :=
  ⟨(level_aggregator_rankings_sorted [cexSessionA, cexSessionB] cexMissionMap []).1,
   (level_aggregator_rankings_sorted [cexSessionA, cexSessionB] cexMissionMap []).2.2 _
     (List.get_mem _ _ _)⟩
